import Mathlib

/-!
Verification of the AIS auth-service Credential Manager
(`src/auth-service`: `main.py`, `models.py`, `schemas.py`, `config.py`).

The service is a thin HTTP-to-ORM layer.  We embed it shallowly:
the user store is a `List User`, the bcrypt context is a parameter
`verify : String → String → Bool` (resp. `hash : String → String`),
the random UUID hex digest is a parameter `uuidHex : List Char`, and
each route handler becomes a pure function from the store and the
request body to a response (plus the resulting store, where relevant).
-/

namespace AuthService

/-- The `users` table row (`models.py`, class `User`).  Timestamps are
modelled as abstract `Nat` instants. -/
structure User where
  id : Nat
  openId : String
  name : Option String
  email : Option String
  passwordHash : Option String
  loginMethod : Option String
  role : String
  createdAt : Nat
  updatedAt : Nat
  lastSignedIn : Nat
deriving DecidableEq, Repr

/-- `schemas.py`, class `UserResponse`: the projection of a `User`
returned over the wire (`id`, `openId`, `name`, `email`, `role`). -/
structure UserResponse where
  id : Nat
  openId : String
  name : Option String
  email : Option String
  role : String
deriving DecidableEq, Repr

/-- `UserResponse.model_validate(user)`. -/
def UserResponse.ofUser (u : User) : UserResponse :=
  { id := u.id, openId := u.openId, name := u.name, email := u.email, role := u.role }

/-- `schemas.py`, class `AuthResponse`. -/
structure AuthResponse where
  success : Bool
  user : Option UserResponse
  message : Option String
deriving DecidableEq, Repr

/-- An `HTTPException(status_code, detail)` raised by a route. -/
structure HTTPError where
  status : Nat
  detail : String
deriving DecidableEq, Repr

/-- The process-wide configuration relevant to the Credential Manager
(`config.py`, class `Settings`). -/
structure Settings where
  OWNER_EMAIL : String
deriving DecidableEq, Repr

/-- `db.query(User).filter(User.email == body.email).first()`:
first stored row whose (nullable) email equals the given string. -/
def findByEmail (db : List User) (email : String) : Option User :=
  db.find? (fun u => u.email == some email)

/-- Python truthiness of the nullable `passwordHash` column:
`None` and the empty string are both falsy. -/
def truthyHash : Option String → Bool
  | none => false
  | some s => !(s == "")

/-- The seven values of the `user_role` enum (`models.py`). -/
def userRoleValues : List String :=
  ["user", "admin", "super_admin", "airline_admin", "finance", "ops", "support"]

/-- Membership in the `user_role` enum. -/
def validRole (r : String) : Bool := userRoleValues.contains r

/-- A lowercase hexadecimal digit, as produced by `uuid4().hex`. -/
def isLowerHexDigit (c : Char) : Bool :=
  (decide (('0' : Char) ≤ c) && decide (c ≤ ('9' : Char))) ||
  (decide (('a' : Char) ≤ c) && decide (c ≤ ('f' : Char)))

/-- `main.py`, `register` (body after request validation).
`uuidHex` stands for the 32-character digest `uuid.uuid4().hex`;
`hash` for `pwd_context.hash`; `nextId`/`now` for the autoincrement id
and the database clock.  Returns the HTTP 409 error or the response
together with the new store. -/
def register (s : Settings) (hash : String → String) (uuidHex : List Char)
    (nextId now : Nat) (db : List User) (email password : String)
    (name : Option String) : Except HTTPError (AuthResponse × List User) :=
  match findByEmail db email with
  | some _ =>
      .error { status := 409, detail := "A user with this email already exists." }
  | none =>
      let open_id := "local_" ++ String.mk (uuidHex.take 16)
      let hashed := hash password
      let role :=
        if s.OWNER_EMAIL ≠ "" ∧ email.toLower = s.OWNER_EMAIL.toLower
        then "admin" else "user"
      let user : User :=
        { id := nextId, openId := open_id, name := name, email := some email,
          passwordHash := some hashed, loginMethod := some "password",
          role := role, createdAt := now, updatedAt := now, lastSignedIn := now }
      .ok ({ success := true, user := some (UserResponse.ofUser user),
             message := some "Registration successful." }, db ++ [user])

/-- `main.py`, `login` (body after request validation).
`verify` stands for `pwd_context.verify`.  The branch on `ph = ""`
reflects Python truthiness of `user.passwordHash`. -/
def login (verify : String → String → Bool) (db : List User)
    (email password : String) : Except HTTPError AuthResponse :=
  match findByEmail db email with
  | none => .error { status := 401, detail := "Invalid email or password." }
  | some user =>
    match user.passwordHash with
    | none => .error { status := 401, detail := "Invalid email or password." }
    | some ph =>
      if ph = "" then
        .error { status := 401, detail := "Invalid email or password." }
      else if verify password ph then
        .ok { success := true, user := some (UserResponse.ofUser user),
              message := some "Login successful." }
      else
        .error { status := 401, detail := "Invalid email or password." }

/-- `main.py`, `verify_password` (body after request validation):
same lookup and checks as `login`, but every failure is a normal
`AuthResponse` with `success := false` and a distinguishing message. -/
def verify_password (verify : String → String → Bool) (db : List User)
    (email password : String) : AuthResponse :=
  match findByEmail db email with
  | none =>
      { success := false, user := none,
        message := some "User not found or no password set." }
  | some user =>
    match user.passwordHash with
    | none =>
        { success := false, user := none,
          message := some "User not found or no password set." }
    | some ph =>
      if ph = "" then
        { success := false, user := none,
          message := some "User not found or no password set." }
      else if verify password ph then
        { success := true, user := some (UserResponse.ofUser user),
          message := some "Password verified." }
      else
        { success := false, user := none,
          message := some "Password does not match." }

/-- `schemas.py`, `RegisterRequest`: `email : EmailStr` (syntax check
abstracted as `isEmail`), `password : Field(min_length=8, max_length=128)`. -/
def validRegisterRequest (isEmail : String → Bool) (email password : String) : Bool :=
  isEmail email && decide (8 ≤ password.length) && decide (password.length ≤ 128)

/-- `schemas.py`, `VerifyPasswordRequest`: plain `str` fields, so no
constraint is checked on either field. -/
def validVerifyPasswordRequest (_email _password : String) : Bool :=
  true

/-- Outcome of a route once FastAPI request validation is taken into
account: a 422 validation rejection, a raised `HTTPException`, or a
normal response. -/
inductive RouteOutcome
  | validationError
  | httpError (e : HTTPError)
  | ok (resp : AuthResponse)
deriving DecidableEq, Repr

/-- The `/auth/register` route: request validation, then `register`.
Returns the outcome together with the resulting store. -/
def registerRoute (isEmail : String → Bool) (s : Settings)
    (hash : String → String) (uuidHex : List Char) (nextId now : Nat)
    (db : List User) (email password : String) (name : Option String) :
    RouteOutcome × List User :=
  if validRegisterRequest isEmail email password then
    match register s hash uuidHex nextId now db email password name with
    | .error e => (.httpError e, db)
    | .ok (resp, db2) => (.ok resp, db2)
  else
    (.validationError, db)

/-- The `/auth/login` route: the handler contains no store write, so the
store component is returned untouched. -/
def loginRoute (verify : String → String → Bool) (db : List User)
    (email password : String) : RouteOutcome × List User :=
  (match login verify db email password with
   | .error e => .httpError e
   | .ok resp => .ok resp, db)

/-- The `/auth/verify-password` route: request validation (vacuous),
then `verify_password`; no store write. -/
def verifyPasswordRoute (verify : String → String → Bool) (db : List User)
    (email password : String) : RouteOutcome × List User :=
  if validVerifyPasswordRequest email password then
    (.ok (verify_password verify db email password), db)
  else
    (.validationError, db)

/-- The store after `n` consecutive `/auth/login` requests with the
given credentials. -/
def loginMany (verify : String → String → Bool) (email password : String) :
    Nat → List User → List User
  | 0, db => db
  | n + 1, db => loginMany verify email password n (loginRoute verify db email password).2

/-- The single `HTTPException` value raised by every `login` failure. -/
def authFailure : HTTPError :=
  { status := 401, detail := "Invalid email or password." }

/-- The `HTTPException` raised on a registration conflict. -/
def conflictError : HTTPError :=
  { status := 409, detail := "A user with this email already exists." }

/-- `verify_password` reason A: unknown email or no stored hash. -/
def reasonNotFound : String := "User not found or no password set."

/-- `verify_password` reason B: stored hash present but mismatch. -/
def reasonMismatch : String := "Password does not match."

/-- The lookup-stage failure condition shared by `login` and
`verify_password`: no row with this email, or a falsy stored hash. -/
def lookupFails (db : List User) (email : String) : Bool :=
  match findByEmail db email with
  | none => true
  | some u => !truthyHash u.passwordHash

/-- The record built and inserted by a successful `register` call. -/
def registeredUser (s : Settings) (hash : String → String) (uuidHex : List Char)
    (nextId now : Nat) (email password : String) (name : Option String) : User :=
  { id := nextId, openId := "local_" ++ String.mk (uuidHex.take 16),
    name := name, email := some email, passwordHash := some (hash password),
    loginMethod := some "password",
    role := if s.OWNER_EMAIL ≠ "" ∧ email.toLower = s.OWNER_EMAIL.toLower
            then "admin" else "user",
    createdAt := now, updatedAt := now, lastSignedIn := now }

/-- The response built by a successful `register` call. -/
def registeredResponse (s : Settings) (hash : String → String) (uuidHex : List Char)
    (nextId now : Nat) (email password : String) (name : Option String) : AuthResponse :=
  { success := true,
    user := some (UserResponse.ofUser
      (registeredUser s hash uuidHex nextId now email password name)),
    message := some "Registration successful." }

theorem register_eq_of_not_found (s : Settings) (hash : String → String)
    (uuidHex : List Char) (nextId now : Nat) (db : List User)
    (email password : String) (name : Option String)
    (hfree : findByEmail db email = none) :
    register s hash uuidHex nextId now db email password name =
      .ok (registeredResponse s hash uuidHex nextId now email password name,
           db ++ [registeredUser s hash uuidHex nextId now email password name]) := by
  unfold register registeredResponse registeredUser
  rw [hfree]

theorem register_eq_of_found (s : Settings) (hash : String → String)
    (uuidHex : List Char) (nextId now : Nat) (db : List User)
    (email password : String) (name : Option String) (u0 : User)
    (hfound : findByEmail db email = some u0) :
    register s hash uuidHex nextId now db email password name = .error conflictError := by
  unfold register conflictError
  rw [hfound]

theorem login_of_lookupFails (verify : String → String → Bool) (db : List User)
    (email password : String) (h : lookupFails db email = true) :
    login verify db email password = .error authFailure := by
  unfold lookupFails at h
  cases hf : findByEmail db email with
  | none => unfold login authFailure; simp [hf]
  | some u =>
    simp only [hf] at h
    cases hph : u.passwordHash with
    | none => unfold login authFailure; simp [hf, hph]
    | some ph =>
      simp only [hph, truthyHash, Bool.not_not] at h
      have hemp : ph = "" := by simpa using h
      unfold login authFailure
      simp [hf, hph, hemp]

theorem login_of_mismatch (verify : String → String → Bool) (db : List User)
    (email password : String) (u : User) (ph : String)
    (hf : findByEmail db email = some u) (hph : u.passwordHash = some ph)
    (hne : ph ≠ "") (hv : verify password ph = false) :
    login verify db email password = .error authFailure := by
  unfold login authFailure
  simp [hf, hph, hne, hv]

theorem login_of_match (verify : String → String → Bool) (db : List User)
    (email password : String) (u : User) (ph : String)
    (hf : findByEmail db email = some u) (hph : u.passwordHash = some ph)
    (hne : ph ≠ "") (hv : verify password ph = true) :
    login verify db email password =
      .ok { success := true, user := some (UserResponse.ofUser u),
            message := some "Login successful." } := by
  unfold login
  simp [hf, hph, hne, hv]

theorem login_error_unique (verify : String → String → Bool) (db : List User)
    (email password : String) (e : HTTPError)
    (h : login verify db email password = .error e) : e = authFailure := by
  unfold login at h
  unfold authFailure
  cases hf : findByEmail db email with
  | none => simp only [hf] at h; exact (Except.error.inj h).symm
  | some u =>
    simp only [hf] at h
    cases hph : u.passwordHash with
    | none => simp only [hph] at h; exact (Except.error.inj h).symm
    | some ph =>
      simp only [hph] at h
      by_cases hne : ph = ""
      · simp only [if_pos hne] at h
        exact (Except.error.inj h).symm
      · simp only [if_neg hne] at h
        cases hv : verify password ph with
        | true => simp [hv] at h
        | false => simp [hv] at h; exact h.symm

theorem vp_of_lookupFails (verify : String → String → Bool) (db : List User)
    (email password : String) (h : lookupFails db email = true) :
    verify_password verify db email password =
      { success := false, user := none, message := some reasonNotFound } := by
  unfold lookupFails at h
  cases hf : findByEmail db email with
  | none => unfold verify_password reasonNotFound; simp [hf]
  | some u =>
    simp only [hf] at h
    cases hph : u.passwordHash with
    | none => unfold verify_password reasonNotFound; simp [hf, hph]
    | some ph =>
      simp only [hph, truthyHash, Bool.not_not] at h
      have hemp : ph = "" := by simpa using h
      unfold verify_password reasonNotFound
      simp [hf, hph, hemp]

theorem vp_of_mismatch (verify : String → String → Bool) (db : List User)
    (email password : String) (u : User) (ph : String)
    (hf : findByEmail db email = some u) (hph : u.passwordHash = some ph)
    (hne : ph ≠ "") (hv : verify password ph = false) :
    verify_password verify db email password =
      { success := false, user := none, message := some reasonMismatch } := by
  unfold verify_password reasonMismatch
  simp [hf, hph, hne, hv]

theorem vp_of_match (verify : String → String → Bool) (db : List User)
    (email password : String) (u : User) (ph : String)
    (hf : findByEmail db email = some u) (hph : u.passwordHash = some ph)
    (hne : ph ≠ "") (hv : verify password ph = true) :
    verify_password verify db email password =
      { success := true, user := some (UserResponse.ofUser u),
        message := some "Password verified." } := by
  unfold verify_password
  simp [hf, hph, hne, hv]

/-- When the shared lookup stage does not fail, it yields a row together
with a non-empty stored hash. -/
theorem lookup_ok_elim (db : List User) (email : String)
    (h : lookupFails db email = false) :
    ∃ u ph, findByEmail db email = some u ∧ u.passwordHash = some ph ∧ ph ≠ "" := by
  unfold lookupFails at h
  cases hf : findByEmail db email with
  | none => simp [hf] at h
  | some u =>
    simp only [hf] at h
    cases hph : u.passwordHash with
    | none => simp [hph, truthyHash] at h
    | some ph =>
      simp only [hph, truthyHash, Bool.not_not] at h
      refine ⟨u, ph, rfl, hph, ?_⟩
      simpa using h

/-- A concrete stand-in for `pwd_context.hash`, used in witnesses. -/
def demoHash (password : String) : String := "hash:" ++ password

/-- A concrete stand-in for `pwd_context.verify`: accepts exactly the
hashes produced by `demoHash`.  Used in witnesses. -/
def demoVerify (password ph : String) : Bool := ph == "hash:" ++ password

/-- A concrete email-syntax check, used in witnesses. -/
def demoIsEmail (e : String) : Bool := e.data.contains '@'

/-- A concrete `uuid4().hex` digest, used in witnesses. -/
def demoUuidHex : List Char := "0123456789abcdef0123456789abcdef".data

/-- A concrete stored password-login user, used in witnesses. -/
def demoUser : User :=
  { id := 1, openId := "local_0123456789abcdef", name := none,
    email := some "a@x.com", passwordHash := some "hash:longpassword1",
    loginMethod := some "password", role := "user",
    createdAt := 0, updatedAt := 0, lastSignedIn := 0 }

/-- A concrete stored social-login-only user (no password hash), used in
witnesses. -/
def demoNoPassUser : User :=
  { id := 2, openId := "local_00000000000000ff", name := none,
    email := some "s@x.com", passwordHash := none,
    loginMethod := some "oauth", role := "user",
    createdAt := 0, updatedAt := 0, lastSignedIn := 0 }

/-- C1: on every successful `register`, the created user gets role
"admin" exactly when the owner email is configured (non-empty) and the
registering email matches it case-insensitively, and role "user" in
every other case (empty owner email, or differing email), for every
prior store contents. -/
theorem register_role_decision (s : Settings) (hash : String → String)
    (uuidHex : List Char) (nextId now : Nat) (db : List User)
    (email password : String) (name : Option String)
    (hfree : findByEmail db email = none) :
    ∃ resp u,
      register s hash uuidHex nextId now db email password name = .ok (resp, db ++ [u]) ∧
      u.role = (if s.OWNER_EMAIL ≠ "" ∧ email.toLower = s.OWNER_EMAIL.toLower
                then "admin" else "user") ∧
      (s.OWNER_EMAIL ≠ "" → email.toLower = s.OWNER_EMAIL.toLower → u.role = "admin") ∧
      (s.OWNER_EMAIL = "" → u.role = "user") ∧
      (email.toLower ≠ s.OWNER_EMAIL.toLower → u.role = "user") := by
  refine ⟨registeredResponse s hash uuidHex nextId now email password name,
          registeredUser s hash uuidHex nextId now email password name,
          register_eq_of_not_found s hash uuidHex nextId now db email password name hfree,
          rfl, ?_, ?_, ?_⟩
  · intro h1 h2
    simp [registeredUser, h1, h2]
  · intro h
    simp [registeredUser, h]
  · intro h
    simp [registeredUser, h]

theorem register_role_decision_witness :
    ∃ resp u,
      register ⟨"owner@x.com"⟩ demoHash demoUuidHex 1 0 []
          "owner@x.com" "longpassword1" none = .ok (resp, [] ++ [u]) ∧
      u.role = "admin" := by
  obtain ⟨resp, u, h1, _, h3, _, _⟩ :=
    register_role_decision ⟨"owner@x.com"⟩ demoHash demoUuidHex 1 0 []
      "owner@x.com" "longpassword1" none rfl
  exact ⟨resp, u, h1, h3 (by decide) rfl⟩

/-- C2: a `register` call for an email that already has a matching row
fails with the 409 conflict error and leaves the store unchanged; a
call for an unmatched email appends exactly one row and returns it. -/
theorem register_conflict_or_insert (isEmail : String → Bool) (s : Settings)
    (hash : String → String) (uuidHex : List Char) (nextId now : Nat)
    (db : List User) (email password : String) (name : Option String)
    (hv : validRegisterRequest isEmail email password = true) :
    ((∃ u0, findByEmail db email = some u0) →
      registerRoute isEmail s hash uuidHex nextId now db email password name
        = (.httpError conflictError, db)) ∧
    (findByEmail db email = none →
      ∃ resp u,
        registerRoute isEmail s hash uuidHex nextId now db email password name
          = (.ok resp, db ++ [u]) ∧
        u.email = some email ∧ resp.user = some (UserResponse.ofUser u)) := by
  constructor
  · rintro ⟨u0, h0⟩
    unfold registerRoute
    rw [register_eq_of_found s hash uuidHex nextId now db email password name u0 h0]
    simp [hv]
  · intro hfree
    refine ⟨registeredResponse s hash uuidHex nextId now email password name,
            registeredUser s hash uuidHex nextId now email password name,
            ?_, rfl, rfl⟩
    unfold registerRoute
    rw [register_eq_of_not_found s hash uuidHex nextId now db email password name hfree]
    simp [hv]

theorem register_conflict_or_insert_witness :
    registerRoute demoIsEmail ⟨""⟩ demoHash demoUuidHex 2 0 [demoUser]
        "a@x.com" "longpassword1" none = (.httpError conflictError, [demoUser]) ∧
    (∃ resp u,
      registerRoute demoIsEmail ⟨""⟩ demoHash demoUuidHex 1 0 []
          "b@x.com" "longpassword1" none = (.ok resp, [] ++ [u]) ∧
      u.email = some "b@x.com" ∧ resp.user = some (UserResponse.ofUser u)) := by
  constructor
  · exact (register_conflict_or_insert demoIsEmail ⟨""⟩ demoHash demoUuidHex 2 0
      [demoUser] "a@x.com" "longpassword1" none (by decide)).1 ⟨demoUser, by decide⟩
  · exact (register_conflict_or_insert demoIsEmail ⟨""⟩ demoHash demoUuidHex 1 0
      [] "b@x.com" "longpassword1" none (by decide)).2 rfl

/-- C3: each of the three `login` failure conditions — unknown email,
row without a (truthy) password hash, and password mismatch — raises
the very same 401 error value `authFailure`, and every `login` error is
that value. -/
theorem login_failures_identical (verify : String → String → Bool) (db : List User)
    (email password : String) :
    (findByEmail db email = none → login verify db email password = .error authFailure) ∧
    (∀ u, findByEmail db email = some u → truthyHash u.passwordHash = false →
      login verify db email password = .error authFailure) ∧
    (∀ u ph, findByEmail db email = some u → u.passwordHash = some ph → ph ≠ "" →
      verify password ph = false → login verify db email password = .error authFailure) ∧
    (∀ e, login verify db email password = .error e → e = authFailure) := by
  refine ⟨?_, ?_, ?_, fun e h => login_error_unique verify db email password e h⟩
  · intro h
    exact login_of_lookupFails verify db email password (by unfold lookupFails; simp [h])
  · intro u hf ht
    exact login_of_lookupFails verify db email password (by unfold lookupFails; simp [hf, ht])
  · intro u ph hf hph hne hv
    exact login_of_mismatch verify db email password u ph hf hph hne hv

theorem login_failures_identical_witness :
    login demoVerify [demoUser, demoNoPassUser] "ghost@x.com" "anything" = .error authFailure ∧
    login demoVerify [demoUser, demoNoPassUser] "s@x.com" "anything" = .error authFailure ∧
    login demoVerify [demoUser, demoNoPassUser] "a@x.com" "wrong" = .error authFailure := by
  refine ⟨?_, ?_, ?_⟩
  · exact (login_failures_identical demoVerify [demoUser, demoNoPassUser]
      "ghost@x.com" "anything").1 (by decide)
  · exact (login_failures_identical demoVerify [demoUser, demoNoPassUser]
      "s@x.com" "anything").2.1 demoNoPassUser (by decide) (by decide)
  · exact (login_failures_identical demoVerify [demoUser, demoNoPassUser]
      "a@x.com" "wrong").2.2.1 demoUser "hash:longpassword1"
      (by decide) (by decide) (by decide) (by decide)

/-- C4: `verify_password` signals failure only through a normal response
with `success = false`, with message `reasonNotFound` when the email is
unknown or the row has no truthy hash, the distinct message
`reasonMismatch` on a password mismatch, and it returns
`success = true` only when the check against the stored hash passes. -/
theorem verify_password_soft_failures (verify : String → String → Bool)
    (db : List User) (email password : String) :
    (lookupFails db email = true →
      verify_password verify db email password =
        { success := false, user := none, message := some reasonNotFound }) ∧
    (∀ u ph, findByEmail db email = some u → u.passwordHash = some ph → ph ≠ "" →
      verify password ph = false →
      verify_password verify db email password =
        { success := false, user := none, message := some reasonMismatch }) ∧
    reasonNotFound ≠ reasonMismatch ∧
    ((verify_password verify db email password).success = true →
      ∃ u ph, findByEmail db email = some u ∧ u.passwordHash = some ph ∧
        verify password ph = true) := by
  refine ⟨vp_of_lookupFails verify db email password,
          fun u ph hf hph hne hv => vp_of_mismatch verify db email password u ph hf hph hne hv,
          by decide, ?_⟩
  intro hs
  cases hLF : lookupFails db email with
  | true =>
    rw [vp_of_lookupFails verify db email password hLF] at hs
    simp at hs
  | false =>
    obtain ⟨u, ph, hf, hph, hne⟩ := lookup_ok_elim db email hLF
    cases hv : verify password ph with
    | false =>
      rw [vp_of_mismatch verify db email password u ph hf hph hne hv] at hs
      simp at hs
    | true => exact ⟨u, ph, hf, hph, hv⟩

theorem verify_password_soft_failures_witness :
    verify_password demoVerify [demoUser] "ghost@x.com" "x" =
      { success := false, user := none, message := some reasonNotFound } ∧
    verify_password demoVerify [demoUser] "a@x.com" "wrong" =
      { success := false, user := none, message := some reasonMismatch } := by
  constructor
  · exact (verify_password_soft_failures demoVerify [demoUser] "ghost@x.com" "x").1 (by decide)
  · exact (verify_password_soft_failures demoVerify [demoUser] "a@x.com" "wrong").2.1
      demoUser "hash:longpassword1" (by decide) (by decide) (by decide) (by decide)

/-- C5: `login` and `verify_password` agree on every store and input:
`login` succeeds exactly when `verify_password` reports
`success = true`, the lookup-stage failure produces `authFailure` in
one and `reasonNotFound` in the other, a mismatch produces
`authFailure` and `reasonMismatch` respectively, and on success both
return the same user payload. -/
theorem login_verify_password_agree (verify : String → String → Bool)
    (db : List User) (email password : String) :
    ((∃ r, login verify db email password = .ok r) ↔
      (verify_password verify db email password).success = true) ∧
    (lookupFails db email = true →
      login verify db email password = .error authFailure ∧
      verify_password verify db email password =
        { success := false, user := none, message := some reasonNotFound }) ∧
    (∀ u ph, findByEmail db email = some u → u.passwordHash = some ph → ph ≠ "" →
      verify password ph = false →
      login verify db email password = .error authFailure ∧
      verify_password verify db email password =
        { success := false, user := none, message := some reasonMismatch }) ∧
    (∀ r, login verify db email password = .ok r →
      verify_password verify db email password =
        { r with message := some "Password verified." }) := by
  refine ⟨?_, fun h => ⟨login_of_lookupFails verify db email password h,
                        vp_of_lookupFails verify db email password h⟩,
          fun u ph hf hph hne hv => ⟨login_of_mismatch verify db email password u ph hf hph hne hv,
                                     vp_of_mismatch verify db email password u ph hf hph hne hv⟩,
          ?_⟩
  · cases hLF : lookupFails db email with
    | true =>
      constructor
      · rintro ⟨r, hr⟩
        rw [login_of_lookupFails verify db email password hLF] at hr
        cases hr
      · intro hs
        rw [vp_of_lookupFails verify db email password hLF] at hs
        simp at hs
    | false =>
      obtain ⟨u, ph, hf, hph, hne⟩ := lookup_ok_elim db email hLF
      cases hv : verify password ph with
      | false =>
        constructor
        · rintro ⟨r, hr⟩
          rw [login_of_mismatch verify db email password u ph hf hph hne hv] at hr
          cases hr
        · intro hs
          rw [vp_of_mismatch verify db email password u ph hf hph hne hv] at hs
          simp at hs
      | true =>
        constructor
        · intro _
          rw [vp_of_match verify db email password u ph hf hph hne hv]
        · intro _
          exact ⟨_, login_of_match verify db email password u ph hf hph hne hv⟩
  · intro r hr
    cases hLF : lookupFails db email with
    | true =>
      rw [login_of_lookupFails verify db email password hLF] at hr
      cases hr
    | false =>
      obtain ⟨u, ph, hf, hph, hne⟩ := lookup_ok_elim db email hLF
      cases hv : verify password ph with
      | false =>
        rw [login_of_mismatch verify db email password u ph hf hph hne hv] at hr
        cases hr
      | true =>
        rw [login_of_match verify db email password u ph hf hph hne hv] at hr
        cases hr
        rw [vp_of_match verify db email password u ph hf hph hne hv]

theorem login_verify_password_agree_witness :
    ((∃ r, login demoVerify [demoUser] "a@x.com" "longpassword1" = .ok r) ↔
      (verify_password demoVerify [demoUser] "a@x.com" "longpassword1").success = true) ∧
    (login demoVerify [demoUser] "ghost@x.com" "x" = .error authFailure ∧
      verify_password demoVerify [demoUser] "ghost@x.com" "x" =
        { success := false, user := none, message := some reasonNotFound }) := by
  constructor
  · exact (login_verify_password_agree demoVerify [demoUser] "a@x.com" "longpassword1").1
  · exact (login_verify_password_agree demoVerify [demoUser] "ghost@x.com" "x").2.1 (by decide)

/-- C6: the `login` route never touches the store — its store component
is returned as-is, any number of repeated attempts leaves the store
equal to the original (so `lastSignedIn` of every row is untouched) —
and a successful `login` returns exactly the stored row's data. -/
theorem login_no_mutation (verify : String → String → Bool) (db : List User)
    (email password : String) :
    (loginRoute verify db email password).2 = db ∧
    (∀ n, loginMany verify email password n db = db) ∧
    (∀ r, login verify db email password = .ok r →
      ∃ u, findByEmail db email = some u ∧ u ∈ db ∧
        r = { success := true, user := some (UserResponse.ofUser u),
              message := some "Login successful." }) := by
  refine ⟨rfl, ?_, ?_⟩
  · intro n
    induction n with
    | zero => rfl
    | succ k ih => exact ih
  · intro r hr
    cases hLF : lookupFails db email with
    | true =>
      rw [login_of_lookupFails verify db email password hLF] at hr
      cases hr
    | false =>
      obtain ⟨u, ph, hf, hph, hne⟩ := lookup_ok_elim db email hLF
      cases hv : verify password ph with
      | false =>
        rw [login_of_mismatch verify db email password u ph hf hph hne hv] at hr
        cases hr
      | true =>
        rw [login_of_match verify db email password u ph hf hph hne hv] at hr
        cases hr
        exact ⟨u, hf, List.mem_of_find?_eq_some hf, rfl⟩

theorem login_no_mutation_witness :
    loginMany demoVerify "a@x.com" "wrong" 5 [demoUser] = [demoUser] ∧
    (∃ u, findByEmail [demoUser] "a@x.com" = some u ∧ u ∈ [demoUser] ∧
      ({ success := true, user := some (UserResponse.ofUser demoUser),
         message := some "Login successful." } : AuthResponse)
        = { success := true, user := some (UserResponse.ofUser u),
            message := some "Login successful." }) := by
  constructor
  · exact (login_no_mutation demoVerify [demoUser] "a@x.com" "wrong").2.1 5
  · exact (login_no_mutation demoVerify [demoUser] "a@x.com" "longpassword1").2.2
      { success := true, user := some (UserResponse.ofUser demoUser),
        message := some "Login successful." } (by rfl)

/-- C7: every external identifier created by `register` is the fixed
marker "local_" followed by exactly the first 16 characters of the
32-character lowercase-hex UUID digest, hence exactly 16 hexadecimal
characters. -/
theorem register_openId_shape (s : Settings) (hash : String → String)
    (uuidHex : List Char) (nextId now : Nat) (db : List User)
    (email password : String) (name : Option String)
    (hlen : uuidHex.length = 32)
    (hhex : ∀ c ∈ uuidHex, isLowerHexDigit c = true)
    (hfree : findByEmail db email = none) :
    ∃ resp u,
      register s hash uuidHex nextId now db email password name = .ok (resp, db ++ [u]) ∧
      u.openId = "local_" ++ String.mk (uuidHex.take 16) ∧
      (uuidHex.take 16).length = 16 ∧
      (∀ c ∈ uuidHex.take 16, isLowerHexDigit c = true) := by
  refine ⟨registeredResponse s hash uuidHex nextId now email password name,
          registeredUser s hash uuidHex nextId now email password name,
          register_eq_of_not_found s hash uuidHex nextId now db email password name hfree,
          rfl, ?_, ?_⟩
  · simp [List.length_take, hlen]
  · intro c hc
    exact hhex c (List.take_subset _ _ hc)

theorem register_openId_shape_witness :
    ∃ resp u,
      register ⟨""⟩ demoHash demoUuidHex 1 0 [] "a@x.com" "longpassword1" none
        = .ok (resp, [] ++ [u]) ∧
      u.openId = "local_" ++ String.mk (demoUuidHex.take 16) ∧
      (demoUuidHex.take 16).length = 16 ∧
      (∀ c ∈ demoUuidHex.take 16, isLowerHexDigit c = true) :=
  register_openId_shape ⟨""⟩ demoHash demoUuidHex 1 0 [] "a@x.com" "longpassword1" none
    (by decide) (by decide) rfl

/-- The store after the register route is either unchanged or extended
by exactly the freshly built row. -/
theorem registerRoute_store (isEmail : String → Bool) (s : Settings)
    (hash : String → String) (uuidHex : List Char) (nextId now : Nat)
    (db : List User) (email password : String) (name : Option String) :
    (registerRoute isEmail s hash uuidHex nextId now db email password name).2 = db ∨
    (registerRoute isEmail s hash uuidHex nextId now db email password name).2
      = db ++ [registeredUser s hash uuidHex nextId now email password name] := by
  unfold registerRoute
  by_cases hv : validRegisterRequest isEmail email password = true
  · cases hfe : findByEmail db email with
    | some u0 =>
      left
      rw [register_eq_of_found s hash uuidHex nextId now db email password name u0 hfe]
      simp [hv]
    | none =>
      right
      rw [register_eq_of_not_found s hash uuidHex nextId now db email password name hfe]
      simp [hv]
  · left
    simp only [Bool.not_eq_true] at hv
    simp [hv]

/-- The role stored on a freshly built row is "admin" or "user". -/
theorem registeredUser_role_cases (s : Settings) (hash : String → String)
    (uuidHex : List Char) (nextId now : Nat) (email password : String)
    (name : Option String) :
    (registeredUser s hash uuidHex nextId now email password name).role = "admin" ∨
    (registeredUser s hash uuidHex nextId now email password name).role = "user" := by
  unfold registeredUser
  dsimp only
  by_cases h : s.OWNER_EMAIL ≠ "" ∧ email.toLower = s.OWNER_EMAIL.toLower
  · rw [if_pos h]
    exact Or.inl rfl
  · rw [if_neg h]
    exact Or.inr rfl

/-- C8: if every stored role lies in the seven-value `user_role` enum,
this still holds after any register-route call; a successful `register`
adds only rows whose role is "admin" or "user"; and both those values
(including the column default "user") lie in the enum. -/
theorem roles_always_valid (isEmail : String → Bool) (s : Settings)
    (hash : String → String) (uuidHex : List Char) (nextId now : Nat)
    (db : List User) (email password : String) (name : Option String)
    (hdb : ∀ u ∈ db, validRole u.role = true) :
    (∀ u ∈ (registerRoute isEmail s hash uuidHex nextId now db email password name).2,
      validRole u.role = true) ∧
    (∀ resp db2,
      register s hash uuidHex nextId now db email password name = .ok (resp, db2) →
      ∀ u ∈ db2, u ∈ db ∨ u.role = "admin" ∨ u.role = "user") ∧
    validRole "user" = true ∧ validRole "admin" = true := by
  have hnewrole : validRole
      (registeredUser s hash uuidHex nextId now email password name).role = true := by
    rcases registeredUser_role_cases s hash uuidHex nextId now email password name
      with h | h <;> rw [h] <;> decide
  refine ⟨?_, ?_, by decide, by decide⟩
  · intro u hu
    rcases registerRoute_store isEmail s hash uuidHex nextId now db email password name
      with h | h
    · rw [h] at hu
      exact hdb u hu
    · rw [h] at hu
      rcases List.mem_append.mp hu with hu2 | hu2
      · exact hdb u hu2
      · have : u = registeredUser s hash uuidHex nextId now email password name := by
          simpa using hu2
        rw [this]
        exact hnewrole
  · intro resp db2 hok u hu
    cases hfe : findByEmail db email with
    | some u0 =>
      rw [register_eq_of_found s hash uuidHex nextId now db email password name u0 hfe] at hok
      cases hok
    | none =>
      rw [register_eq_of_not_found s hash uuidHex nextId now db email password name hfe] at hok
      simp only [Except.ok.injEq, Prod.mk.injEq] at hok
      obtain ⟨_, h2⟩ := hok
      subst h2
      rcases List.mem_append.mp hu with hu2 | hu2
      · exact Or.inl hu2
      · right
        have : u = registeredUser s hash uuidHex nextId now email password name := by
          simpa using hu2
        rw [this]
        exact registeredUser_role_cases s hash uuidHex nextId now email password name

theorem roles_always_valid_witness :
    (∀ u ∈ (registerRoute demoIsEmail ⟨""⟩ demoHash demoUuidHex 1 0 []
        "a@x.com" "longpassword1" none).2, validRole u.role = true) ∧
    validRole "user" = true := by
  obtain ⟨h1, _, h3, _⟩ := roles_always_valid demoIsEmail ⟨""⟩ demoHash demoUuidHex 1 0 []
    "a@x.com" "longpassword1" none (by simp)
  exact ⟨h1, h3⟩

/-- C9: a register request whose password length lies outside [8, 128]
is rejected by request validation: the route returns the validation
rejection with the store unchanged, and its outcome is the same for
every store — the manager logic never consults the store. -/
theorem register_password_length_validation (isEmail : String → Bool) (s : Settings)
    (hash : String → String) (uuidHex : List Char) (nextId now : Nat)
    (db : List User) (email password : String) (name : Option String)
    (hbad : password.length < 8 ∨ 128 < password.length) :
    registerRoute isEmail s hash uuidHex nextId now db email password name
      = (.validationError, db) ∧
    (∀ db2, (registerRoute isEmail s hash uuidHex nextId now db2 email password name).1
      = .validationError) := by
  have hv : validRegisterRequest isEmail email password = false := by
    unfold validRegisterRequest
    rcases hbad with h | h
    · have : ¬ (8 ≤ password.length) := Nat.not_le.mpr h
      simp [this]
    · have : ¬ (password.length ≤ 128) := Nat.not_le.mpr h
      simp [this]
  constructor
  · unfold registerRoute
    simp [hv]
  · intro db2
    unfold registerRoute
    simp [hv]

theorem register_password_length_validation_witness :
    registerRoute demoIsEmail ⟨""⟩ demoHash demoUuidHex 1 0 [demoUser]
      "b@x.com" "short" none = (.validationError, [demoUser]) :=
  (register_password_length_validation demoIsEmail ⟨""⟩ demoHash demoUuidHex 1 0
    [demoUser] "b@x.com" "short" none (Or.inl (by decide))).1

/-- C10: the verify-password route applies no input validation — for
every input, including empty strings, it returns the plain
`verify_password` soft result with the store untouched — and whenever
no matching row with a truthy hash exists the result is
`success = false` with the `reasonNotFound` message. -/
theorem verify_password_route_no_validation (verify : String → String → Bool)
    (db : List User) (email password : String) :
    verifyPasswordRoute verify db email password
      = (.ok (verify_password verify db email password), db) ∧
    (lookupFails db email = true →
      verify_password verify db email password
        = { success := false, user := none, message := some reasonNotFound }) :=
  ⟨rfl, vp_of_lookupFails verify db email password⟩

theorem verify_password_route_no_validation_witness :
    verifyPasswordRoute demoVerify [demoUser] "" ""
      = (.ok (verify_password demoVerify [demoUser] "" ""), [demoUser]) ∧
    verify_password demoVerify [demoUser] "" ""
      = { success := false, user := none, message := some reasonNotFound } := by
  obtain ⟨h1, h2⟩ := verify_password_route_no_validation demoVerify [demoUser] "" ""
  exact ⟨h1, h2 (by decide)⟩

end AuthService
